import Mathlib

/-!
Verification of the fakeeditor auxiliary process
(src/fakeeditor/src/main.zig) against its specification.

The program is a single sequential process: it announces its identity
(pid, cwd, argv lines, sentinel) on stdout, then polls a signal
directory for a file named "0", monitors its parent process, and exits
with a deterministic status.  We embed one execution as the list of
observable events it produces (writes to the buffered stdout/stderr
writers, flushes, environment lookup, parent resolution, liveness
probes, signal-file access checks, sleeps, and the final exit), driven
by an environment record that supplies the results of every OS
interaction (clock readings, probe results, file-access results, ...).

Abstractions made by the embedding, stated once here:
  * writes to the buffered writers and the flushes in flushAndExit are
    modelled as always succeeding (the source ignores flush errors with
    a catch-all);
  * a failure of getcwd propagates out of main as a Zig error return:
    the runtime exits non-zero WITHOUT flushing the buffered writers;
    this path is the Outcome.UnhandledError case below;
  * elapsedMs is the per-tick value of
    divTrunc (nanoTimestamp - start_time) ns_per_ms, supplied directly
    by the tick oracle;
  * the Windows snapshot API is modelled as either delivering the full
    process list or failing (CreateToolhelp32Snapshot / Process32First /
    Process32Next failures), with the walk over a delivered list
    embedded faithfully from getParentPidWindows.
-/

namespace FakeEditor

/-- POLLING_INTERVAL_MS from main.zig. -/
def POLLING_INTERVAL_MS : Nat := 50

/-- TOTAL_TIMEOUT_MS from main.zig. -/
def TOTAL_TIMEOUT_MS : Nat := 5000

/-- The fixed end-of-identity-block sentinel line printed by main. -/
def sentinelLine : String := "FAKEEDITOR_OUTPUT_END\n"

/-- Diagnostic line for a failed environment-variable lookup. -/
def envErrMsg : String := "Error getting environment variable JJ_FAKEEDITOR_SIGNAL_DIR\n"

/-- Diagnostic line for a failed signal-file path construction. -/
def joinErrMsg : String := "Critical Error: Failed to construct signal file path. Exiting fakeeditor.\n"

/-- Diagnostic line printed when getppid returns 1 on POSIX. -/
def reparentMsg : String := "Info: Parent process is init/launchd (PID 1), original parent likely exited. Exiting fakeeditor.\n"

/-- Diagnostic line printed when the total timeout is reached. -/
def timeoutMsg : String := "Error: Timeout (5000ms) reached in fakeeditor. Exiting.\n"

/-- Diagnostic line printed when the POSIX liveness probe reports ESRCH. -/
def posixGoneMsg : String := "Parent process no longer exists (POSIX). Exiting.\n"

/-- Diagnostic line printed when the Windows liveness check reports the parent gone. -/
def winGoneMsg : String := "Parent process no longer exists (Windows). Exiting.\n"

/-- Diagnostic line printed for a signal-file access error other than FileNotFound. -/
def accessErrMsg : String := "Error checking for signal file 0 in fakeeditor\n"

/-- Diagnostic line printed when WaitForSingleObject returns WAIT_FAILED. -/
def waitFailedMsg : String := "WaitForSingleObject failed\n"

/-- Diagnostic line printed when CreateToolhelp32Snapshot fails. -/
def snapFailMsg : String := "CreateToolhelp32Snapshot failed\n"

/-- Diagnostic line printed when Process32First fails. -/
def firstFailMsg : String := "Process32First failed\n"

/-- Diagnostic line printed when Process32Next fails. -/
def nextFailMsg : String := "Process32Next failed\n"

/-- Diagnostic line printed when the snapshot reports parent PID 0. -/
def parentZeroMsg : String := "Error: Retrieved parent PID is 0. This is unexpected.\n"

/-- Diagnostic line printed by main when parent-PID discovery failed on Windows. -/
def warnDisableMsg : String := "Warning: Failed to get parent PID on Windows. Parent process monitoring will be disabled.\n"

/-- One observable event of an execution. -/
inductive Ev
  | out (s : String)
  | errOut (s : String)
  | flushOut
  | flushErr
  | envLookup
  | resolveParent
  | probe
  | accessCheck
  | sleepEv (ms : Nat)
  | exitEv (code : Nat)
  deriving DecidableEq

/-- Terminal outcome of an execution.  The first four are the
TerminationOutcome values of the specification; UnhandledError is a Zig
error return from main (getcwd failure), which exits non-zero without
flushing the buffered writers. -/
inductive Outcome
  | Completed
  | Timeout
  | ParentGone
  | SetupError
  | UnhandledError
  deriving DecidableEq

/-- flushAndExit from main.zig: flush stdout, flush stderr, exit. -/
def flushAndExit (code : Nat) : List Ev :=
  [Ev.flushOut, Ev.flushErr, Ev.exitEv code]

/-- Result of one wait-loop tick: either the loop terminates with an
outcome, or it continues to the next tick. -/
inductive TickRes
  | term (evs : List Ev) (o : Outcome)
  | cont (evs : List Ev)
  deriving DecidableEq

/-- Result of the POSIX liveness probe kill(ppid, 0) on one tick. -/
inductive KillRes
  | ok
  | noSuchProcess
  | otherErr
  deriving DecidableEq

/-- Result of accessAbsolute on the signal file path on one tick. -/
inductive AccessRes
  | ok
  | fileNotFound
  | otherErr
  deriving DecidableEq

/-- OS interaction results for one tick of the POSIX wait loop. -/
structure PosixTick where
  elapsedMs : Int
  kill : KillRes
  access : AccessRes

/-- The OS environment of one POSIX execution. -/
structure PosixEnv where
  pid : Nat
  cwd : Option String
  argv : List String
  signalDir : Option String
  joinOk : Bool
  ppid : Int
  ticks : Nat → PosixTick

/-- One tick of the wait loop on POSIX (loop body of main, lines
152-195): timeout check first, then the kill(ppid, 0) probe (NoSuchProcess
is fatal, other probe errors are ignored without logging), then the signal
file check (accessible ends the loop with exit 0, FileNotFound continues,
any other access error is logged and continues). -/
def posixTick (e : PosixTick) : TickRes :=
  if (TOTAL_TIMEOUT_MS : Int) ≤ e.elapsedMs then
    TickRes.term (Ev.errOut timeoutMsg :: flushAndExit 1) Outcome.Timeout
  else if e.kill = KillRes.noSuchProcess then
    TickRes.term (Ev.probe :: Ev.errOut posixGoneMsg :: flushAndExit 1) Outcome.ParentGone
  else
    match e.access with
    | AccessRes.ok => TickRes.term (Ev.probe :: Ev.accessCheck :: flushAndExit 0) Outcome.Completed
    | AccessRes.fileNotFound => TickRes.cont [Ev.probe, Ev.accessCheck]
    | AccessRes.otherErr => TickRes.cont [Ev.probe, Ev.accessCheck, Ev.errOut accessErrMsg]

/-- The POSIX wait loop, fuel-bounded: returns the events of the loop
and the outcome (none when fuel ran out while still polling). -/
def posixLoop (env : PosixEnv) : Nat → Nat → List Ev × Option Outcome
  | 0, _ => ([], none)
  | fuel + 1, t =>
    match posixTick (env.ticks t) with
    | TickRes.term evs o => (evs, some o)
    | TickRes.cont evs =>
      let r := posixLoop env fuel (t + 1)
      (evs ++ Ev.sleepEv POLLING_INTERVAL_MS :: r.1, r.2)

/-- main on POSIX: print pid, print cwd (a getcwd failure is a Zig error
return: exit without flushing), print every argv entry, look up the
signal-dir environment variable (missing is a SetupError exit), print
the sentinel and flush stdout, construct the signal file path (failure
is a SetupError exit), read getppid (1 means already reparented:
ParentGone exit before the loop), then run the wait loop. -/
def runPosix (env : PosixEnv) (fuel : Nat) : List Ev × Option Outcome :=
  let p1 := [Ev.out (toString env.pid ++ "\n")]
  match env.cwd with
  | none => (p1 ++ [Ev.exitEv 1], some Outcome.UnhandledError)
  | some cwd =>
    let p2 := p1 ++ [Ev.out (cwd ++ "\n")] ++
      env.argv.map (fun a => Ev.out (a ++ "\n")) ++ [Ev.envLookup]
    match env.signalDir with
    | none => (p2 ++ Ev.errOut envErrMsg :: flushAndExit 1, some Outcome.SetupError)
    | some _ =>
      let p3 := p2 ++ [Ev.out sentinelLine, Ev.flushOut]
      if env.joinOk then
        let p4 := p3 ++ [Ev.resolveParent]
        if env.ppid = 1 then
          (p4 ++ Ev.errOut reparentMsg :: flushAndExit 1, some Outcome.ParentGone)
        else
          let r := posixLoop env fuel 0
          (p4 ++ r.1, r.2)
      else
        (p3 ++ Ev.errOut joinErrMsg :: flushAndExit 1, some Outcome.SetupError)

/-- Result of WaitForSingleObject(handle, 0) on one tick. -/
inductive WaitRes
  | object0
  | waitTimeout
  | waitFailed
  deriving DecidableEq

/-- OS interaction results for one tick of the Windows wait loop. -/
structure WinTick where
  elapsedMs : Int
  openOk : Bool
  wait : WaitRes
  access : AccessRes

/-- Failures of the Windows snapshot API calls themselves. -/
inductive SnapApiErr
  | snapshotFailed
  | firstFailed
  | nextFailed
  deriving DecidableEq

/-- The error set of getParentPidWindows. -/
inductive WinPidErr
  | snapshotFailed
  | firstFailed
  | parentIsZero
  | parentNotFound
  | nextFailed
  deriving DecidableEq

/-- The OS environment of one Windows execution.  snapshot is the
process list (pid, parent pid) delivered by the Toolhelp API, or an
API failure. -/
structure WinEnv where
  pid : Nat
  cwd : Option String
  argv : List String
  signalDir : Option String
  joinOk : Bool
  snapshot : Except SnapApiErr (List (Nat × Nat))
  ticks : Nat → WinTick

/-- The entry walk inside getParentPidWindows: find the first entry
whose pid is the current pid; a recorded parent pid of 0 is an error,
reaching the end of the list is ParentNotFound. -/
def walkSnapshot (myPid : Nat) : List (Nat × Nat) → List Ev × Except WinPidErr Nat
  | [] => ([], Except.error WinPidErr.parentNotFound)
  | (p, pp) :: rest =>
    if p = myPid then
      if pp = 0 then ([Ev.errOut parentZeroMsg], Except.error WinPidErr.parentIsZero)
      else ([], Except.ok pp)
    else walkSnapshot myPid rest

/-- getParentPidWindows from main.zig: take a snapshot and walk it;
every failure is logged (except ParentNotFound, which the source
returns silently after the walk ends). -/
def getParentPidWindows (myPid : Nat) (snap : Except SnapApiErr (List (Nat × Nat))) :
    List Ev × Except WinPidErr Nat :=
  match snap with
  | Except.error SnapApiErr.snapshotFailed =>
    ([Ev.errOut snapFailMsg], Except.error WinPidErr.snapshotFailed)
  | Except.error SnapApiErr.firstFailed =>
    ([Ev.errOut firstFailMsg], Except.error WinPidErr.firstFailed)
  | Except.error SnapApiErr.nextFailed =>
    ([Ev.errOut nextFailMsg], Except.error WinPidErr.nextFailed)
  | Except.ok entries => walkSnapshot myPid entries

/-- parentProcessExistsWindows from main.zig: OpenProcess failure means
gone; then a non-blocking WaitForSingleObject: signaled means gone,
timeout means alive, WAIT_FAILED is logged and treated as gone. -/
def parentProcessExistsWindows (openOk : Bool) (wait : WaitRes) : List Ev × Bool :=
  if openOk = false then ([], false)
  else
    match wait with
    | WaitRes.object0 => ([], false)
    | WaitRes.waitTimeout => ([], true)
    | WaitRes.waitFailed => ([Ev.errOut waitFailedMsg], false)

/-- The per-tick liveness check of main on Windows: when monitoring is
active it calls parentProcessExistsWindows, otherwise it reports alive
without any probe. -/
def winProbe (monActive : Bool) (e : WinTick) : List Ev × Bool :=
  if monActive then
    let r := parentProcessExistsWindows e.openOk e.wait
    (Ev.probe :: r.1, r.2)
  else ([], true)

/-- One tick of the wait loop on Windows: timeout check first, then
(only when monitoring is active) the liveness check, then the signal
file check. -/
def winTick (monActive : Bool) (e : WinTick) : TickRes :=
  if (TOTAL_TIMEOUT_MS : Int) ≤ e.elapsedMs then
    TickRes.term (Ev.errOut timeoutMsg :: flushAndExit 1) Outcome.Timeout
  else if (winProbe monActive e).2 = false then
    TickRes.term ((winProbe monActive e).1 ++ Ev.errOut winGoneMsg :: flushAndExit 1)
      Outcome.ParentGone
  else
    match e.access with
    | AccessRes.ok =>
      TickRes.term ((winProbe monActive e).1 ++ Ev.accessCheck :: flushAndExit 0)
        Outcome.Completed
    | AccessRes.fileNotFound => TickRes.cont ((winProbe monActive e).1 ++ [Ev.accessCheck])
    | AccessRes.otherErr =>
      TickRes.cont ((winProbe monActive e).1 ++ [Ev.accessCheck, Ev.errOut accessErrMsg])

/-- The Windows wait loop, fuel-bounded. -/
def winLoop (env : WinEnv) (monActive : Bool) : Nat → Nat → List Ev × Option Outcome
  | 0, _ => ([], none)
  | fuel + 1, t =>
    match winTick monActive (env.ticks t) with
    | TickRes.term evs o => (evs, some o)
    | TickRes.cont evs =>
      let r := winLoop env monActive fuel (t + 1)
      (evs ++ Ev.sleepEv POLLING_INTERVAL_MS :: r.1, r.2)

/-- main on Windows: identical prelude; parent resolution walks the
process snapshot, and any failure there logs a warning and disables
monitoring for the whole run instead of exiting. -/
def runWindows (env : WinEnv) (fuel : Nat) : List Ev × Option Outcome :=
  let p1 := [Ev.out (toString env.pid ++ "\n")]
  match env.cwd with
  | none => (p1 ++ [Ev.exitEv 1], some Outcome.UnhandledError)
  | some cwd =>
    let p2 := p1 ++ [Ev.out (cwd ++ "\n")] ++
      env.argv.map (fun a => Ev.out (a ++ "\n")) ++ [Ev.envLookup]
    match env.signalDir with
    | none => (p2 ++ Ev.errOut envErrMsg :: flushAndExit 1, some Outcome.SetupError)
    | some _ =>
      let p3 := p2 ++ [Ev.out sentinelLine, Ev.flushOut]
      if env.joinOk then
        let g := getParentPidWindows env.pid env.snapshot
        match g.2 with
        | Except.error _ =>
          let p4 := p3 ++ Ev.resolveParent :: g.1 ++ [Ev.errOut warnDisableMsg]
          let r := winLoop env false fuel 0
          (p4 ++ r.1, r.2)
        | Except.ok _ =>
          let p4 := p3 ++ Ev.resolveParent :: g.1
          let r := winLoop env true fuel 0
          (p4 ++ r.1, r.2)
      else
        (p3 ++ Ev.errOut joinErrMsg :: flushAndExit 1, some Outcome.SetupError)

/-- The exit status of a trace: the code of the last exit event. -/
def exitCodeAux : Option Nat → List Ev → Option Nat
  | acc, [] => acc
  | _, Ev.exitEv c :: rest => exitCodeAux (some c) rest
  | acc, _ :: rest => exitCodeAux acc rest

/-- Exit status recorded in a trace. -/
def exitCode (tr : List Ev) : Option Nat :=
  exitCodeAux none tr

/-- Buffered-stdout accumulator: (flushed text, still-buffered text). -/
def outStep (st : List String × List String) : Ev → List String × List String
  | Ev.out s => (st.1, st.2 ++ [s])
  | Ev.flushOut => (st.1 ++ st.2, [])
  | _ => st

/-- Final stdout state (flushed, buffer) after a trace. -/
def outState (tr : List Ev) : List String × List String :=
  tr.foldl outStep ([], [])

/-- Buffered-stderr accumulator: (flushed text, still-buffered text). -/
def errStep (st : List String × List String) : Ev → List String × List String
  | Ev.errOut s => (st.1, st.2 ++ [s])
  | Ev.flushErr => (st.1 ++ st.2, [])
  | _ => st

/-- Final stderr state (flushed, buffer) after a trace. -/
def errState (tr : List Ev) : List String × List String :=
  tr.foldl errStep ([], [])

/-- All diagnostic lines written during a trace, in order. -/
def errEvents (tr : List Ev) : List String :=
  tr.filterMap (fun e => match e with | Ev.errOut s => some s | _ => none)

/-- Index of the first occurrence of an event in a trace, counting from n. -/
def firstIdxFrom (n : Nat) (x : Ev) : List Ev → Option Nat
  | [] => none
  | e :: rest => if e = x then some n else firstIdxFrom (n + 1) x rest

/-- Index of the first occurrence of an event in a trace. -/
def firstIdx (x : Ev) (tr : List Ev) : Option Nat :=
  firstIdxFrom 0 x tr

/-- A POSIX environment whose signal file is present from the first tick. -/
def envA : PosixEnv :=
  ⟨4242, some "/tmp/work", ["--edit", "msg.txt"], some "/tmp/sig42", true, 77,
    fun t => ⟨(t * 50 : Int), KillRes.ok, AccessRes.ok⟩⟩

/-- A minimal all-success POSIX environment with no arguments. -/
def envB : PosixEnv :=
  ⟨7, some "/w", [], some "/s", true, 2,
    fun _ => ⟨0, KillRes.ok, AccessRes.ok⟩⟩

/-- A POSIX environment whose tick 0 has a probe error other than
NoSuchProcess, after which the signal file appears. -/
def envC : PosixEnv :=
  ⟨9, some "/w", [], some "/s", true, 2,
    fun t =>
      if t = 0 then ⟨0, KillRes.otherErr, AccessRes.fileNotFound⟩
      else ⟨50, KillRes.ok, AccessRes.ok⟩⟩

/-- The POSIX environment of the specification scenario: arguments
--edit and msg.txt, signal file appearing 200 ms after launch. -/
def envC9 : PosixEnv :=
  ⟨4242, some "/tmp/work", ["--edit", "msg.txt"], some "/tmp/sig42", true, 77,
    fun t => ⟨(t * 50 : Int), KillRes.ok, if t < 4 then AccessRes.fileNotFound else AccessRes.ok⟩⟩

/-- A POSIX environment whose parent pid is 1 (already reparented). -/
def envD : PosixEnv :=
  ⟨11, some "/w", ["a"], some "/s", true, 1,
    fun _ => ⟨0, KillRes.ok, AccessRes.ok⟩⟩

/-- A POSIX environment whose getcwd call fails at startup. -/
def envE : PosixEnv :=
  ⟨13, none, ["a"], some "/s", true, 2,
    fun _ => ⟨0, KillRes.ok, AccessRes.ok⟩⟩

/-- A Windows environment with a healthy snapshot and the signal file
present from the first tick. -/
def envW : WinEnv :=
  ⟨33, some "/w", [], some "/s", true, Except.ok [(33, 5), (5, 1)],
    fun _ => ⟨0, true, WaitRes.waitTimeout, AccessRes.ok⟩⟩

/-- A Windows environment whose snapshot call fails, and whose signal
file appears on the second tick. -/
def envWSnap : WinEnv :=
  ⟨33, some "/w", [], some "/s", true, Except.error SnapApiErr.snapshotFailed,
    fun t => ⟨(t * 50 : Int), true, WaitRes.waitTimeout,
      if t = 0 then AccessRes.fileNotFound else AccessRes.ok⟩⟩

/-- The exit status each terminal outcome maps to in main.zig. -/
def exitOf : Outcome → Nat
  | Outcome.Completed => 0
  | Outcome.Timeout => 1
  | Outcome.ParentGone => 1
  | Outcome.SetupError => 1
  | Outcome.UnhandledError => 1

lemma exitCodeAux_append (a b : List Ev) (acc : Option Nat) :
    exitCodeAux acc (a ++ b) = exitCodeAux (exitCodeAux acc a) b := by
  induction a generalizing acc with
  | nil => rfl
  | cons e rest ih => cases e <;> simp [exitCodeAux, ih]

lemma exitCode_fAE (a : List Ev) (c : Nat) :
    exitCode (a ++ flushAndExit c) = some c := by
  simp [exitCode, exitCodeAux_append, flushAndExit, exitCodeAux]

lemma outState_append (a b : List Ev) :
    outState (a ++ b) = b.foldl outStep (outState a) := by
  simp [outState, List.foldl_append]

lemma errState_append (a b : List Ev) :
    errState (a ++ b) = b.foldl errStep (errState a) := by
  simp [errState, List.foldl_append]

lemma outBuf_fAE (a : List Ev) (c : Nat) :
    (outState (a ++ flushAndExit c)).2 = [] := by
  simp [outState_append, flushAndExit, outStep]

lemma errBuf_fAE (a : List Ev) (c : Nat) :
    (errState (a ++ flushAndExit c)).2 = [] := by
  simp [errState_append, flushAndExit, errStep]

lemma append_cons_shift (l : List Ev) (x : Ev) (m : List Ev) :
    ∃ a, l ++ x :: m = a ++ m :=
  ⟨l ++ [x], by simp⟩

lemma posixTick_term_shape (e : PosixTick) (evs : List Ev) (o : Outcome)
    (h : posixTick e = TickRes.term evs o) :
    o ≠ Outcome.UnhandledError ∧ ∃ a, evs = a ++ flushAndExit (exitOf o) := by
  unfold posixTick at h
  split at h
  · cases h
    exact ⟨by simp, ⟨[Ev.errOut timeoutMsg], by simp [exitOf]⟩⟩
  · split at h
    · cases h
      exact ⟨by simp, ⟨[Ev.probe, Ev.errOut posixGoneMsg], by simp [exitOf]⟩⟩
    · split at h
      · cases h
        exact ⟨by simp, ⟨[Ev.probe, Ev.accessCheck], by simp [exitOf]⟩⟩
      · exact absurd h (by simp)
      · exact absurd h (by simp)

lemma posixLoop_term_shape (env : PosixEnv) :
    ∀ fuel t tr o, posixLoop env fuel t = (tr, some o) →
      o ≠ Outcome.UnhandledError ∧ ∃ a, tr = a ++ flushAndExit (exitOf o) := by
  intro fuel
  induction fuel with
  | zero =>
    intro t tr o h
    simp [posixLoop] at h
  | succ n ih =>
    intro t tr o h
    rw [posixLoop] at h
    rcases htk : posixTick (env.ticks t) with ⟨evs, o2⟩ | ⟨evs⟩
    · rw [htk] at h
      simp at h
      obtain ⟨h1, h2⟩ := h
      subst h1; subst h2
      exact posixTick_term_shape _ _ _ htk
    · rw [htk] at h
      rcases hr : posixLoop env n (t + 1) with ⟨tr2, o2⟩
      rw [hr] at h
      simp at h
      obtain ⟨h1, h2⟩ := h
      subst h1; subst h2
      obtain ⟨hne, a, ha⟩ := ih (t + 1) tr2 o hr
      refine ⟨hne, ⟨evs ++ Ev.sleepEv POLLING_INTERVAL_MS :: a, ?_⟩⟩
      simp [ha]

lemma append_shape (l a m tl : List Ev) (h : tl = a ++ m) :
    ∃ b, l ++ tl = b ++ m :=
  ⟨l ++ a, by simp [h]⟩

lemma runPosix_term_shape (env : PosixEnv) (fuel : Nat) (tr : List Ev) (o : Outcome)
    (h : runPosix env fuel = (tr, some o)) :
    (o = Outcome.UnhandledError ∧ tr = [Ev.out (toString env.pid ++ "\n"), Ev.exitEv 1]) ∨
    (o ≠ Outcome.UnhandledError ∧ ∃ a, tr = a ++ flushAndExit (exitOf o)) := by
  unfold runPosix at h
  rcases hc : env.cwd with _ | cwd
  · rw [hc] at h
    injection h with h1 h2
    injection h2 with h2
    subst h1; subst h2
    left
    exact ⟨rfl, rfl⟩
  · rw [hc] at h
    rcases hd : env.signalDir with _ | d
    · rw [hd] at h
      injection h with h1 h2
      injection h2 with h2
      subst h1; subst h2
      right
      exact ⟨by simp, append_cons_shift _ _ _⟩
    · rw [hd] at h
      simp only [] at h
      by_cases hj : env.joinOk
      · rw [if_pos hj] at h
        by_cases hp : env.ppid = 1
        · rw [if_pos hp] at h
          injection h with h1 h2
          injection h2 with h2
          subst h1; subst h2
          right
          exact ⟨by simp, append_cons_shift _ _ _⟩
        · rw [if_neg hp] at h
          rcases hr : posixLoop env fuel 0 with ⟨tr2, o2⟩
          rw [hr] at h
          injection h with h1 h2
          have h2x : o2 = some o := h2
          subst h2x
          subst h1
          obtain ⟨hne, a, ha⟩ := posixLoop_term_shape env fuel 0 tr2 o hr
          right
          exact ⟨hne, append_shape _ a _ _ ha⟩
      · rw [if_neg hj] at h
        injection h with h1 h2
        injection h2 with h2
        subst h1; subst h2
        right
        exact ⟨by simp, append_cons_shift _ _ _⟩

lemma winTick_term_shape (m : Bool) (e : WinTick) (evs : List Ev) (o : Outcome)
    (h : winTick m e = TickRes.term evs o) :
    o ≠ Outcome.UnhandledError ∧ ∃ a, evs = a ++ flushAndExit (exitOf o) := by
  unfold winTick at h
  split at h
  · cases h
    exact ⟨by simp, ⟨[Ev.errOut timeoutMsg], by simp [exitOf]⟩⟩
  · split at h
    · cases h
      exact ⟨by simp, append_cons_shift _ _ _⟩
    · split at h
      · cases h
        exact ⟨by simp, append_cons_shift _ _ _⟩
      · exact absurd h (by simp)
      · exact absurd h (by simp)

lemma winProbe_false (e : WinTick) : winProbe false e = ([], true) := rfl

lemma winLoop_term_shape (env : WinEnv) (m : Bool) :
    ∀ fuel t tr o, winLoop env m fuel t = (tr, some o) →
      o ≠ Outcome.UnhandledError ∧ ∃ a, tr = a ++ flushAndExit (exitOf o) := by
  intro fuel
  induction fuel with
  | zero =>
    intro t tr o h
    simp [winLoop] at h
  | succ n ih =>
    intro t tr o h
    rw [winLoop] at h
    rcases htk : winTick m (env.ticks t) with ⟨evs, o2⟩ | ⟨evs⟩
    · rw [htk] at h
      simp at h
      obtain ⟨h1, h2⟩ := h
      subst h1; subst h2
      exact winTick_term_shape _ _ _ _ htk
    · rw [htk] at h
      rcases hr : winLoop env m n (t + 1) with ⟨tr2, o2⟩
      rw [hr] at h
      simp at h
      obtain ⟨h1, h2⟩ := h
      subst h1; subst h2
      obtain ⟨hne, a, ha⟩ := ih (t + 1) tr2 o hr
      refine ⟨hne, ⟨evs ++ Ev.sleepEv POLLING_INTERVAL_MS :: a, ?_⟩⟩
      simp [ha]

lemma runWindows_term_shape (env : WinEnv) (fuel : Nat) (tr : List Ev) (o : Outcome)
    (h : runWindows env fuel = (tr, some o)) :
    (o = Outcome.UnhandledError ∧ tr = [Ev.out (toString env.pid ++ "\n"), Ev.exitEv 1]) ∨
    (o ≠ Outcome.UnhandledError ∧ ∃ a, tr = a ++ flushAndExit (exitOf o)) := by
  unfold runWindows at h
  rcases hc : env.cwd with _ | cwd
  · rw [hc] at h
    injection h with h1 h2
    injection h2 with h2
    subst h1; subst h2
    left
    exact ⟨rfl, rfl⟩
  · rw [hc] at h
    rcases hd : env.signalDir with _ | d
    · rw [hd] at h
      injection h with h1 h2
      injection h2 with h2
      subst h1; subst h2
      right
      exact ⟨by simp, append_cons_shift _ _ _⟩
    · rw [hd] at h
      simp only [] at h
      by_cases hj : env.joinOk
      · rw [if_pos hj] at h
        rcases hg : getParentPidWindows env.pid env.snapshot with ⟨logs, res⟩
        rw [hg] at h
        rcases res with err | pp
        · rcases hr : winLoop env false fuel 0 with ⟨tr2, o2⟩
          rw [hr] at h
          injection h with h1 h2
          have h2x : o2 = some o := h2
          subst h2x
          subst h1
          obtain ⟨hne, a, ha⟩ := winLoop_term_shape env false fuel 0 tr2 o hr
          right
          exact ⟨hne, append_shape _ a _ _ ha⟩
        · rcases hr : winLoop env true fuel 0 with ⟨tr2, o2⟩
          rw [hr] at h
          injection h with h1 h2
          have h2x : o2 = some o := h2
          subst h2x
          subst h1
          obtain ⟨hne, a, ha⟩ := winLoop_term_shape env true fuel 0 tr2 o hr
          right
          exact ⟨hne, append_shape _ a _ _ ha⟩
      · rw [if_neg hj] at h
        injection h with h1 h2
        injection h2 with h2
        subst h1; subst h2
        right
        exact ⟨by simp, append_cons_shift _ _ _⟩

/-- Claim C1: for every execution, the process exit status is 0 if and
only if the terminal outcome is Completed; every other terminal outcome
(Timeout, ParentGone, SetupError, and the unhandled getcwd failure)
exits with a non-zero status.  Stated for both platform variants of
main. -/
theorem C1_exit_status :
    (∀ (env : PosixEnv) (fuel : Nat) (tr : List Ev) (o : Outcome),
        runPosix env fuel = (tr, some o) →
        (exitCode tr = some 0 ↔ o = Outcome.Completed)) ∧
    (∀ (env : WinEnv) (fuel : Nat) (tr : List Ev) (o : Outcome),
        runWindows env fuel = (tr, some o) →
        (exitCode tr = some 0 ↔ o = Outcome.Completed)) := by
  constructor
  · intro env fuel tr o h
    rcases runPosix_term_shape env fuel tr o h with ⟨ho, htr⟩ | ⟨hne, a, ha⟩
    · subst ho; subst htr
      simp [exitCode, exitCodeAux]
    · subst ha
      rw [exitCode_fAE]
      cases o <;> simp [exitOf]
  · intro env fuel tr o h
    rcases runWindows_term_shape env fuel tr o h with ⟨ho, htr⟩ | ⟨hne, a, ha⟩
    · subst ho; subst htr
      simp [exitCode, exitCodeAux]
    · subst ha
      rw [exitCode_fAE]
      cases o <;> simp [exitOf]

/-- Witness for C1 at concrete environments: a completed POSIX run and
a completed Windows run both exit with status 0. -/
theorem C1_exit_status_witness :
    (exitCode (runPosix envA 1).1 = some 0 ↔ Outcome.Completed = Outcome.Completed) ∧
    (exitCode (runWindows envW 1).1 = some 0 ↔ Outcome.Completed = Outcome.Completed) :=
  ⟨C1_exit_status.1 envA 1 (runPosix envA 1).1 Outcome.Completed (by decide),
   C1_exit_status.2 envW 1 (runWindows envW 1).1 Outcome.Completed (by decide)⟩

/-- Claim C3 as amended: on every exit path that terminates through
flushAndExit — Completed, Timeout, ParentGone, and the SetupError exits
for a missing signal-directory variable or a failed signal-path
construction — all buffered stdout and stderr text has been flushed by
the time the process terminates (the final buffers are empty).  The
exception forced by the counterexample is the getcwd-failure exit (a
SetupError in the terms of the specification), which propagates as a
Zig error return and terminates with the buffered pid line unflushed;
it is the Outcome.UnhandledError case excluded here. -/
theorem C3_flush_on_exit :
    (∀ (env : PosixEnv) (fuel : Nat) (tr : List Ev) (o : Outcome),
        runPosix env fuel = (tr, some o) → o ≠ Outcome.UnhandledError →
        (outState tr).2 = [] ∧ (errState tr).2 = []) ∧
    (∀ (env : WinEnv) (fuel : Nat) (tr : List Ev) (o : Outcome),
        runWindows env fuel = (tr, some o) → o ≠ Outcome.UnhandledError →
        (outState tr).2 = [] ∧ (errState tr).2 = []) := by
  constructor
  · intro env fuel tr o h hne
    rcases runPosix_term_shape env fuel tr o h with ⟨ho, _⟩ | ⟨_, a, ha⟩
    · exact absurd ho hne
    · subst ha
      exact ⟨outBuf_fAE _ _, errBuf_fAE _ _⟩
  · intro env fuel tr o h hne
    rcases runWindows_term_shape env fuel tr o h with ⟨ho, _⟩ | ⟨_, a, ha⟩
    · exact absurd ho hne
    · subst ha
      exact ⟨outBuf_fAE _ _, errBuf_fAE _ _⟩

/-- Witness for C3 at concrete environments. -/
theorem C3_flush_on_exit_witness :
    ((outState (runPosix envA 1).1).2 = [] ∧ (errState (runPosix envA 1).1).2 = []) ∧
    ((outState (runWindows envW 1).1).2 = [] ∧ (errState (runWindows envW 1).1).2 = []) :=
  ⟨C3_flush_on_exit.1 envA 1 (runPosix envA 1).1 Outcome.Completed (by decide) (by decide),
   C3_flush_on_exit.2 envW 1 (runWindows envW 1).1 Outcome.Completed (by decide) (by decide)⟩

/-- Counterexample to claim C3 as stated: a concrete POSIX run whose
getcwd call fails — an exit the specification maps to SetupError —
terminates with exit status 1 while the pid line written at startup is
still sitting unflushed in the stdout buffer and nothing was ever
flushed, so not every terminal exit path flushes all buffered output. -/
theorem C3_counterexample :
    (runPosix envE 1).2 = some Outcome.UnhandledError ∧
    exitCode (runPosix envE 1).1 = some 1 ∧
    (outState (runPosix envE 1).1).2 = [toString envE.pid ++ "\n"] ∧
    (outState (runPosix envE 1).1).1 = [] := by
  decide

/-- Counterexample to claim C2 as stated: in a fully successful
concrete POSIX run, the environment lookup (event index 2) happens
strictly before the sentinel line is written (index 3) and before the
first flush of standard output (index 4), so the identity block is NOT
flushed, nor even fully emitted, before the environment is consulted. -/
theorem C2_counterexample :
    firstIdx Ev.envLookup (runPosix envB 3).1 = some 2 ∧
    firstIdx (Ev.out sentinelLine) (runPosix envB 3).1 = some 3 ∧
    firstIdx Ev.flushOut (runPosix envB 3).1 = some 4 := by
  decide

/-- Claim C2 as amended: the pid line, cwd line and argument lines are
emitted (in that order) before the environment is consulted; the
sentinel is emitted and the whole block flushed immediately after a
successful environment lookup, before signal-path construction, parent
resolution, and the wait loop. -/
theorem C2_identity_block_order :
    (∀ (env : PosixEnv) (fuel : Nat) (cwd d : String),
        env.cwd = some cwd → env.signalDir = some d →
        ∃ rest, (runPosix env fuel).1 =
          Ev.out (toString env.pid ++ "\n") :: Ev.out (cwd ++ "\n") ::
            ((env.argv.map fun a => Ev.out (a ++ "\n")) ++
              (Ev.envLookup :: Ev.out sentinelLine :: Ev.flushOut :: rest))) ∧
    (∀ (env : WinEnv) (fuel : Nat) (cwd d : String),
        env.cwd = some cwd → env.signalDir = some d →
        ∃ rest, (runWindows env fuel).1 =
          Ev.out (toString env.pid ++ "\n") :: Ev.out (cwd ++ "\n") ::
            ((env.argv.map fun a => Ev.out (a ++ "\n")) ++
              (Ev.envLookup :: Ev.out sentinelLine :: Ev.flushOut :: rest))) := by
  constructor
  · intro env fuel cwd d hc hd
    by_cases hj : env.joinOk
    · by_cases hp : env.ppid = 1
      · exact ⟨Ev.resolveParent :: Ev.errOut reparentMsg :: flushAndExit 1,
          by simp [runPosix, hc, hd, hj, hp]⟩
      · exact ⟨Ev.resolveParent :: (posixLoop env fuel 0).1,
          by simp [runPosix, hc, hd, hj, hp]⟩
    · exact ⟨Ev.errOut joinErrMsg :: flushAndExit 1,
        by simp [runPosix, hc, hd, hj]⟩
  · intro env fuel cwd d hc hd
    by_cases hj : env.joinOk
    · rcases hg : getParentPidWindows env.pid env.snapshot with ⟨logs, res⟩
      rcases res with err | pp
      · exact ⟨Ev.resolveParent :: (logs ++ Ev.errOut warnDisableMsg :: (winLoop env false fuel 0).1),
          by simp [runWindows, hc, hd, hj, hg]⟩
      · exact ⟨Ev.resolveParent :: (logs ++ (winLoop env true fuel 0).1),
          by simp [runWindows, hc, hd, hj, hg]⟩
    · exact ⟨Ev.errOut joinErrMsg :: flushAndExit 1,
        by simp [runWindows, hc, hd, hj]⟩

/-- Witness for the amended C2 at concrete environments. -/
theorem C2_identity_block_order_witness :
    (∃ rest, (runPosix envA 1).1 =
      Ev.out (toString envA.pid ++ "\n") :: Ev.out ("/tmp/work" ++ "\n") ::
        ((envA.argv.map fun a => Ev.out (a ++ "\n")) ++
          (Ev.envLookup :: Ev.out sentinelLine :: Ev.flushOut :: rest))) ∧
    (∃ rest, (runWindows envW 1).1 =
      Ev.out (toString envW.pid ++ "\n") :: Ev.out ("/w" ++ "\n") ::
        ((envW.argv.map fun a => Ev.out (a ++ "\n")) ++
          (Ev.envLookup :: Ev.out sentinelLine :: Ev.flushOut :: rest))) :=
  ⟨C2_identity_block_order.1 envA 1 "/tmp/work" "/tmp/sig42" (by decide) (by decide),
   C2_identity_block_order.2 envW 1 "/w" "/s" (by decide) (by decide)⟩

/-- Claim C4: each tick of the Waiting state checks, in order:
(1) elapsed time against the 5000 ms timeout (reaching it yields
Timeout regardless of the other checks), (2) parent liveness, only when
monitoring is enabled (gone yields ParentGone regardless of the signal
check), (3) the completion signal (present yields Completed); when none
fires, the loop appends exactly one 50 ms sleep and repeats with the
next tick.  Stated over both platform tick functions and both loops. -/
theorem C4_tick_order :
    (∀ e : PosixTick, (TOTAL_TIMEOUT_MS : Int) ≤ e.elapsedMs →
        posixTick e = TickRes.term (Ev.errOut timeoutMsg :: flushAndExit 1) Outcome.Timeout) ∧
    (∀ e : PosixTick, e.elapsedMs < (TOTAL_TIMEOUT_MS : Int) →
        e.kill = KillRes.noSuchProcess →
        posixTick e =
          TickRes.term (Ev.probe :: Ev.errOut posixGoneMsg :: flushAndExit 1) Outcome.ParentGone) ∧
    (∀ e : PosixTick, e.elapsedMs < (TOTAL_TIMEOUT_MS : Int) →
        e.kill ≠ KillRes.noSuchProcess → e.access = AccessRes.ok →
        posixTick e =
          TickRes.term (Ev.probe :: Ev.accessCheck :: flushAndExit 0) Outcome.Completed) ∧
    (∀ e : PosixTick, e.elapsedMs < (TOTAL_TIMEOUT_MS : Int) →
        e.kill ≠ KillRes.noSuchProcess → e.access ≠ AccessRes.ok →
        ∃ evs, posixTick e = TickRes.cont evs) ∧
    (∀ (env : PosixEnv) (fuel t : Nat) (evs : List Ev),
        posixTick (env.ticks t) = TickRes.cont evs →
        posixLoop env (fuel + 1) t =
          (evs ++ Ev.sleepEv POLLING_INTERVAL_MS :: (posixLoop env fuel (t + 1)).1,
            (posixLoop env fuel (t + 1)).2)) ∧
    (∀ (m : Bool) (e : WinTick), (TOTAL_TIMEOUT_MS : Int) ≤ e.elapsedMs →
        winTick m e = TickRes.term (Ev.errOut timeoutMsg :: flushAndExit 1) Outcome.Timeout) ∧
    (∀ e : WinTick, winProbe false e = ([], true)) ∧
    (∀ e : WinTick, winProbe true e =
        (Ev.probe :: (parentProcessExistsWindows e.openOk e.wait).1,
          (parentProcessExistsWindows e.openOk e.wait).2)) ∧
    (∀ (env : WinEnv) (m : Bool) (fuel t : Nat) (evs : List Ev),
        winTick m (env.ticks t) = TickRes.cont evs →
        winLoop env m (fuel + 1) t =
          (evs ++ Ev.sleepEv POLLING_INTERVAL_MS :: (winLoop env m fuel (t + 1)).1,
            (winLoop env m fuel (t + 1)).2)) := by
  refine ⟨?_, ?_, ?_, ?_, ?_, ?_, ?_, ?_, ?_⟩
  · intro e h
    unfold posixTick
    rw [if_pos h]
  · intro e h1 h2
    unfold posixTick
    rw [if_neg (not_le.mpr h1), if_pos h2]
  · intro e h1 h2 h3
    unfold posixTick
    rw [if_neg (not_le.mpr h1), if_neg h2, h3]
  · intro e h1 h2 h3
    unfold posixTick
    rw [if_neg (not_le.mpr h1), if_neg h2]
    rcases ha : e.access
    · exact absurd ha h3
    · exact ⟨_, rfl⟩
    · exact ⟨_, rfl⟩
  · intro env fuel t evs h
    simp only [posixLoop, h]
  · intro m e h
    unfold winTick
    rw [if_pos h]
  · intro e
    rfl
  · intro e
    rfl
  · intro env m fuel t evs h
    simp only [winLoop, h]

/-- Witness for C4 at concrete ticks and a concrete loop step. -/
theorem C4_tick_order_witness :
    posixTick ⟨5000, KillRes.ok, AccessRes.ok⟩ =
      TickRes.term (Ev.errOut timeoutMsg :: flushAndExit 1) Outcome.Timeout ∧
    posixTick ⟨0, KillRes.noSuchProcess, AccessRes.ok⟩ =
      TickRes.term (Ev.probe :: Ev.errOut posixGoneMsg :: flushAndExit 1) Outcome.ParentGone ∧
    posixTick ⟨0, KillRes.ok, AccessRes.ok⟩ =
      TickRes.term (Ev.probe :: Ev.accessCheck :: flushAndExit 0) Outcome.Completed ∧
    (∃ evs, posixTick ⟨0, KillRes.ok, AccessRes.fileNotFound⟩ = TickRes.cont evs) ∧
    posixLoop envC (0 + 1) 0 =
      ([Ev.probe, Ev.accessCheck] ++ Ev.sleepEv POLLING_INTERVAL_MS :: (posixLoop envC 0 (0 + 1)).1,
        (posixLoop envC 0 (0 + 1)).2) ∧
    winTick true ⟨5000, true, WaitRes.waitTimeout, AccessRes.ok⟩ =
      TickRes.term (Ev.errOut timeoutMsg :: flushAndExit 1) Outcome.Timeout ∧
    winLoop envWSnap false (0 + 1) 0 =
      ([Ev.accessCheck] ++ Ev.sleepEv POLLING_INTERVAL_MS :: (winLoop envWSnap false 0 (0 + 1)).1,
        (winLoop envWSnap false 0 (0 + 1)).2) :=
  ⟨C4_tick_order.1 _ (by decide),
   C4_tick_order.2.1 _ (by decide) (by decide),
   C4_tick_order.2.2.1 _ (by decide) (by decide) (by decide),
   C4_tick_order.2.2.2.1 _ (by decide) (by decide) (by decide),
   C4_tick_order.2.2.2.2.1 envC 0 0 [Ev.probe, Ev.accessCheck] (by decide),
   C4_tick_order.2.2.2.2.2.1 true _ (by decide),
   C4_tick_order.2.2.2.2.2.2.2.2 envWSnap false 0 0 [Ev.accessCheck] (by decide)⟩

/-- Claim C5: on a tick that reaches the signal check, an accessible
signal file ends the loop with Completed and exit status 0; a
FileNotFound result continues the tick with no diagnostic; any other
access error appends one diagnostic line and still continues (it does
not terminate the process).  Stated over both platform tick
functions. -/
theorem C5_signal_check :
    (∀ e : PosixTick, e.elapsedMs < (TOTAL_TIMEOUT_MS : Int) →
        e.kill ≠ KillRes.noSuchProcess →
        (e.access = AccessRes.ok →
          posixTick e =
            TickRes.term (Ev.probe :: Ev.accessCheck :: flushAndExit 0) Outcome.Completed) ∧
        (e.access = AccessRes.fileNotFound →
          posixTick e = TickRes.cont [Ev.probe, Ev.accessCheck]) ∧
        (e.access = AccessRes.otherErr →
          posixTick e = TickRes.cont [Ev.probe, Ev.accessCheck, Ev.errOut accessErrMsg])) ∧
    exitCode (Ev.probe :: Ev.accessCheck :: flushAndExit 0) = some 0 ∧
    (∀ (m : Bool) (e : WinTick), e.elapsedMs < (TOTAL_TIMEOUT_MS : Int) →
        (winProbe m e).2 = true →
        (e.access = AccessRes.ok →
          winTick m e =
            TickRes.term ((winProbe m e).1 ++ Ev.accessCheck :: flushAndExit 0)
              Outcome.Completed) ∧
        (e.access = AccessRes.fileNotFound →
          winTick m e = TickRes.cont ((winProbe m e).1 ++ [Ev.accessCheck])) ∧
        (e.access = AccessRes.otherErr →
          winTick m e =
            TickRes.cont ((winProbe m e).1 ++ [Ev.accessCheck, Ev.errOut accessErrMsg]))) := by
  refine ⟨?_, by decide, ?_⟩
  · intro e h1 h2
    refine ⟨?_, ?_, ?_⟩ <;> intro ha <;>
      · unfold posixTick
        rw [if_neg (not_le.mpr h1), if_neg h2, ha]
  · intro m e h1 h2
    refine ⟨?_, ?_, ?_⟩ <;> intro ha <;>
      · unfold winTick
        rw [if_neg (not_le.mpr h1), if_neg (by simp [h2]), ha]

/-- Witness for C5 at concrete ticks. -/
theorem C5_signal_check_witness :
    posixTick ⟨0, KillRes.ok, AccessRes.otherErr⟩ =
      TickRes.cont [Ev.probe, Ev.accessCheck, Ev.errOut accessErrMsg] ∧
    winTick true ⟨0, true, WaitRes.waitTimeout, AccessRes.otherErr⟩ =
      TickRes.cont ((winProbe true ⟨0, true, WaitRes.waitTimeout, AccessRes.otherErr⟩).1 ++
        [Ev.accessCheck, Ev.errOut accessErrMsg]) :=
  ⟨(C5_signal_check.1 _ (by decide) (by decide)).2.2 (by decide),
   (C5_signal_check.2.2 true _ (by decide) (by decide)).2.2 (by decide)⟩

/-- Counterexample to claim C6 as stated: a concrete POSIX run whose
first tick has a probe error other than NoSuchProcess writes NO
diagnostic line at all (the run then completes normally), so the claim
that any other probe error is logged is false of the code. -/
theorem C6_counterexample :
    (envC.ticks 0).kill = KillRes.otherErr ∧
    (runPosix envC 3).2 = some Outcome.Completed ∧
    errEvents (runPosix envC 3).1 = [] := by
  decide

/-- Claim C6 as amended: on POSIX, exactly the NoSuchProcess probe
error maps to ParentGone with a non-zero exit; any other probe error is
silently ignored for that tick — the tick behaves exactly as if the
probe had succeeded, and in particular nothing is logged and the
process does not terminate because of it. -/
theorem C6_probe_errors :
    (∀ e : PosixTick, e.elapsedMs < (TOTAL_TIMEOUT_MS : Int) →
        e.kill = KillRes.noSuchProcess →
        posixTick e =
          TickRes.term (Ev.probe :: Ev.errOut posixGoneMsg :: flushAndExit 1)
            Outcome.ParentGone) ∧
    exitCode (Ev.probe :: Ev.errOut posixGoneMsg :: flushAndExit 1) = some 1 ∧
    (∀ e : PosixTick, e.kill = KillRes.otherErr →
        posixTick e = posixTick ⟨e.elapsedMs, KillRes.ok, e.access⟩) := by
  refine ⟨?_, by decide, ?_⟩
  · intro e h1 h2
    unfold posixTick
    rw [if_neg (not_le.mpr h1), if_pos h2]
  · intro e h
    unfold posixTick
    rw [h]
    simp

/-- Witness for the amended C6 at concrete ticks. -/
theorem C6_probe_errors_witness :
    posixTick ⟨0, KillRes.noSuchProcess, AccessRes.fileNotFound⟩ =
      TickRes.term (Ev.probe :: Ev.errOut posixGoneMsg :: flushAndExit 1) Outcome.ParentGone ∧
    posixTick ⟨0, KillRes.otherErr, AccessRes.fileNotFound⟩ =
      posixTick ⟨0, KillRes.ok, AccessRes.fileNotFound⟩ :=
  ⟨C6_probe_errors.1 _ (by decide) (by decide),
   C6_probe_errors.2.2 ⟨0, KillRes.otherErr, AccessRes.fileNotFound⟩ (by decide)⟩

/-- Claim C7: on POSIX, when getppid returns 1, the process reports the
parent gone and exits with status 1 immediately, without entering the
wait loop — no probe, no signal check, and no poll sleep ever occurs. -/
theorem C7_reparented_immediate :
    ∀ (env : PosixEnv) (fuel : Nat) (cwd d : String),
      env.cwd = some cwd → env.signalDir = some d → env.joinOk = true → env.ppid = 1 →
      (runPosix env fuel).2 = some Outcome.ParentGone ∧
      exitCode (runPosix env fuel).1 = some 1 ∧
      Ev.probe ∉ (runPosix env fuel).1 ∧
      Ev.accessCheck ∉ (runPosix env fuel).1 ∧
      Ev.sleepEv POLLING_INTERVAL_MS ∉ (runPosix env fuel).1 := by
  intro env fuel cwd d hc hd hj hp
  have h2 : (runPosix env fuel).2 = some Outcome.ParentGone := by
    simp [runPosix, hc, hd, hj, hp]
  have hrun : runPosix env fuel = ((runPosix env fuel).1, some Outcome.ParentGone) :=
    Prod.ext rfl h2
  refine ⟨h2, ?_, ?_, ?_, ?_⟩
  · rcases runPosix_term_shape env fuel _ _ hrun with ⟨ho, _⟩ | ⟨_, a, ha⟩
    · exact absurd ho (by simp)
    · rw [ha, exitCode_fAE]
      rfl
  all_goals
    simp [runPosix, hc, hd, hj, hp, flushAndExit]

/-- Witness for C7 at a concrete environment with ppid 1. -/
theorem C7_reparented_immediate_witness :
    (runPosix envD 3).2 = some Outcome.ParentGone ∧
    exitCode (runPosix envD 3).1 = some 1 ∧
    Ev.probe ∉ (runPosix envD 3).1 ∧
    Ev.accessCheck ∉ (runPosix envD 3).1 ∧
    Ev.sleepEv POLLING_INTERVAL_MS ∉ (runPosix envD 3).1 :=
  C7_reparented_immediate envD 3 "/w" "/s" (by decide) (by decide) (by decide) (by decide)

/-- Claim C10: on Windows, when the non-blocking wait on the opened
parent handle returns neither signaled nor timeout (WAIT_FAILED), the
failure is logged and the tick reports the parent gone, so the process
exits with status 1 — unlike POSIX, where a probe error other than
NoSuchProcess lets the tick continue. -/
theorem C10_wait_failed_fatal :
    (∀ e : WinTick, e.elapsedMs < (TOTAL_TIMEOUT_MS : Int) →
        e.openOk = true → e.wait = WaitRes.waitFailed →
        winTick true e =
          TickRes.term
            (Ev.probe :: Ev.errOut waitFailedMsg :: Ev.errOut winGoneMsg :: flushAndExit 1)
            Outcome.ParentGone) ∧
    exitCode (Ev.probe :: Ev.errOut waitFailedMsg :: Ev.errOut winGoneMsg :: flushAndExit 1) =
      some 1 ∧
    (∀ e : PosixTick, e.elapsedMs < (TOTAL_TIMEOUT_MS : Int) →
        e.kill = KillRes.otherErr → e.access = AccessRes.fileNotFound →
        posixTick e = TickRes.cont [Ev.probe, Ev.accessCheck]) := by
  refine ⟨?_, by decide, ?_⟩
  · intro e h1 h2 h3
    unfold winTick winProbe parentProcessExistsWindows
    rw [h2, h3]
    rw [if_neg (not_le.mpr h1)]
    simp
  · intro e h1 h2 h3
    unfold posixTick
    rw [if_neg (not_le.mpr h1), if_neg (by simp [h2]), h3]

/-- Witness for C10 at concrete ticks. -/
theorem C10_wait_failed_fatal_witness :
    winTick true ⟨100, true, WaitRes.waitFailed, AccessRes.fileNotFound⟩ =
      TickRes.term
        (Ev.probe :: Ev.errOut waitFailedMsg :: Ev.errOut winGoneMsg :: flushAndExit 1)
        Outcome.ParentGone ∧
    posixTick ⟨100, KillRes.otherErr, AccessRes.fileNotFound⟩ =
      TickRes.cont [Ev.probe, Ev.accessCheck] :=
  ⟨C10_wait_failed_fatal.1 _ (by decide) (by decide) (by decide),
   C10_wait_failed_fatal.2.2 _ (by decide) (by decide) (by decide)⟩

lemma winTick_false_eq (e : WinTick) :
    winTick false e =
      if (TOTAL_TIMEOUT_MS : Int) ≤ e.elapsedMs then
        TickRes.term (Ev.errOut timeoutMsg :: flushAndExit 1) Outcome.Timeout
      else
        match e.access with
        | AccessRes.ok => TickRes.term (Ev.accessCheck :: flushAndExit 0) Outcome.Completed
        | AccessRes.fileNotFound => TickRes.cont [Ev.accessCheck]
        | AccessRes.otherErr => TickRes.cont [Ev.accessCheck, Ev.errOut accessErrMsg] := by
  unfold winTick
  by_cases h : (TOTAL_TIMEOUT_MS : Int) ≤ e.elapsedMs
  · rw [if_pos h, if_pos h]
  · rw [if_neg h, if_neg h, if_neg (by simp [winProbe])]
    cases ha : e.access <;> simp [winProbe]

lemma winLoop_false_props (env : WinEnv) :
    ∀ fuel t, Ev.probe ∉ (winLoop env false fuel t).1 ∧
      (winLoop env false fuel t).2 ≠ some Outcome.ParentGone := by
  intro fuel
  induction fuel with
  | zero =>
    intro t
    simp [winLoop]
  | succ n ih =>
    intro t
    rw [winLoop, winTick_false_eq]
    by_cases he : (TOTAL_TIMEOUT_MS : Int) ≤ (env.ticks t).elapsedMs
    · rw [if_pos he]
      simp [flushAndExit]
    · rw [if_neg he]
      cases ha : (env.ticks t).access
      · simp [flushAndExit]
      · refine ⟨?_, (ih (t + 1)).2⟩
        simp [(ih (t + 1)).1]
      · refine ⟨?_, (ih (t + 1)).2⟩
        simp [(ih (t + 1)).1]

lemma walkSnapshot_probe_free (myPid : Nat) (l : List (Nat × Nat)) :
    Ev.probe ∉ (walkSnapshot myPid l).1 := by
  induction l with
  | nil => simp [walkSnapshot]
  | cons x rest ih =>
    rcases x with ⟨p, pp⟩
    unfold walkSnapshot
    by_cases h1 : p = myPid
    · rw [if_pos h1]
      by_cases h2 : pp = 0
      · rw [if_pos h2]; simp
      · rw [if_neg h2]; simp
    · rw [if_neg h1]
      exact ih

lemma getParentPid_probe_free (p : Nat) (s : Except SnapApiErr (List (Nat × Nat))) :
    Ev.probe ∉ (getParentPidWindows p s).1 := by
  rcases s with e | l
  · rcases e <;> simp [getParentPidWindows]
  · exact walkSnapshot_probe_free p l

/-- Claim C8: on Windows, when parent-pid discovery fails for any
reason, liveness monitoring is disabled for the whole run — the warning
is logged, no liveness probe ever happens, the run still enters the
wait loop (its result is exactly the monitoring-disabled loop result),
and the outcome can never be ParentGone. -/
theorem C8_windows_monitoring_disabled :
    ∀ (env : WinEnv) (fuel : Nat) (cwd d : String) (err : WinPidErr),
      env.cwd = some cwd → env.signalDir = some d → env.joinOk = true →
      (getParentPidWindows env.pid env.snapshot).2 = Except.error err →
      (runWindows env fuel).2 = (winLoop env false fuel 0).2 ∧
      Ev.errOut warnDisableMsg ∈ (runWindows env fuel).1 ∧
      Ev.probe ∉ (runWindows env fuel).1 ∧
      (runWindows env fuel).2 ≠ some Outcome.ParentGone := by
  intro env fuel cwd d err hc hd hj hg
  rcases hge : getParentPidWindows env.pid env.snapshot with ⟨logs, res⟩
  have hres : res = Except.error err := by
    rw [hge] at hg
    exact hg
  subst hres
  have hlogs : Ev.probe ∉ logs := by
    have hx := getParentPid_probe_free env.pid env.snapshot
    rw [hge] at hx
    exact hx
  have hloop := winLoop_false_props env fuel 0
  refine ⟨?_, ?_, ?_, ?_⟩
  · simp [runWindows, hc, hd, hj, hge]
  · simp [runWindows, hc, hd, hj, hge]
  · simp [runWindows, hc, hd, hj, hge]
    exact ⟨hlogs, hloop.1⟩
  · simp [runWindows, hc, hd, hj, hge]
    exact hloop.2

/-- Witness for C8 at a concrete environment whose snapshot call
fails. -/
theorem C8_windows_monitoring_disabled_witness :
    (runWindows envWSnap 3).2 = (winLoop envWSnap false 3 0).2 ∧
    Ev.errOut warnDisableMsg ∈ (runWindows envWSnap 3).1 ∧
    Ev.probe ∉ (runWindows envWSnap 3).1 ∧
    (runWindows envWSnap 3).2 ≠ some Outcome.ParentGone :=
  C8_windows_monitoring_disabled envWSnap 3 "/w" "/s" WinPidErr.snapshotFailed
    (by decide) (by decide) (by decide) rfl

/-- Claim C9: the specification scenario — arguments --edit and
msg.txt, signal file created 200 ms after launch — exits with status 0
after outcome Completed, and the flushed identity block lists exactly
the two argument lines between the working-directory line and the
sentinel line. -/
theorem C9_scenario :
    (runPosix envC9 6).2 = some Outcome.Completed ∧
    exitCode (runPosix envC9 6).1 = some 0 ∧
    (outState (runPosix envC9 6).1).1 =
      ["4242\n", "/tmp/work\n", "--edit\n", "msg.txt\n", sentinelLine] ∧
    (outState (runPosix envC9 6).1).2 = [] := by
  decide

end FakeEditor
